import Mathlib

/-! # windows-node-installer: provisioning and teardown of a Windows node on EC2

A shallow embedding of the Go packages

* `tools/windows-node-installer/pkg/openshiftcluster` (`GetInfrastructure`),
* `tools/winc-vm-setup/pkg/fileutil` (`ReadInstanceInfo`),
* `tools/windows-node-installer/pkg/cloudprovider/aws` (`CreateWindowsVM`,
  `DestroyWindowsVM` and their helpers),

followed by theorems about them.

Conventions of the embedding.

* A Go `error` is an `Option String`: `none` is `nil`, `some msg` is an error.
  A Go function returning `(T, error)` returns `Except String T`.
* The cloud SDK, the cluster client, the HTTP client and the JSON codec are
  external collaborators.  They are gathered in `Env`; every response may
  depend on the whole history of calls issued so far, so that quantifying over
  `Env` quantifies over every pattern of successes and failures.
* Every call that leaves the process is appended to `World.calls`.
* `log.Panic*` and run-time panics end the run with `Outcome.panic`,
  `log.Fatal*` ends it with `Outcome.exit`.  Plain log lines are not modelled.
* Identifier fields of SDK outputs (`GroupId`, `VpcId`, `InstanceId`, ...) are
  `*string` in the SDK; the embedding takes them as populated strings.
-/

namespace WincInstaller

/-! ## Package openshiftcluster -/

namespace openshiftcluster

/-- The fields of `v1.Infrastructure` the installer reads. -/
structure Infrastructure where
  InfrastructureName : String
  PlatformType : String
  Region : String
deriving DecidableEq, Repr

/-- The `v1.InfrastructureList` returned by the cluster client. -/
structure InfrastructureList where
  Items : List Infrastructure
deriving DecidableEq, Repr

/-- The pair `(infra, err)` returned by `Infrastructures().List(...)`. -/
structure ListResult where
  infra : Option InfrastructureList
  err : Option String
deriving DecidableEq, Repr

/-- `GetInfrastructure`, applied to the result of the list call. -/
def GetInfrastructure (res : ListResult) : Except String Infrastructure :=
  match res.err with
  | some e => .error ("error getting infrastructure, " ++ e)
  | none =>
    match res.infra with
    | none => .error "error getting infrastructure, no infrastructure present"
    | some infra =>
      match infra.Items with
      | [] =>                     -- len(infra.Items) < 1
        .error "error getting infrastructure, no infrastructure present"
      | [item] =>                 -- exactly one: &infra.Items[0]
        .ok item
      | _ :: _ :: _ =>            -- len(infra.Items) > 1
        .error ("error getting infrastructure, more than 1 infrastructure present. " ++
          "Existing number of infrastructures: " ++ toString infra.Items.length)

end openshiftcluster

/-! ## Outcomes of a run -/

/-- How a Go call ends: it returns a value, panics (`log.Panic*`, nil
dereference, index out of range) or exits the process (`log.Fatal*`). -/
inductive Outcome (α : Type) where
  | ret (a : α)
  | panic (msg : String)
  | exit (msg : String)
deriving DecidableEq, Repr

/-! ## Package aws: data model -/

namespace aws

/-- Go `SGInfo`. -/
structure SGInfo where
  Groupid : String
  Groupname : String
deriving DecidableEq, Repr

/-- Go `InstanceInfo`. -/
structure InstanceInfo where
  Instanceid : String
  SG : List SGInfo
deriving DecidableEq, Repr

/-- Go `Instances` (declared as `InstancesInfo`): the ledger. -/
abbrev Instances := List InstanceInfo

/-! ### Requests and responses of the external collaborators -/

/-- SDK `ec2.Filter`. -/
structure Filter where
  Name : String
  Values : List String
deriving DecidableEq, Repr

/-- SDK `ec2.Tag`. -/
structure Tag where
  Key : String
  Value : String
deriving DecidableEq, Repr

/-- SDK `ec2.IamInstanceProfileSpecification`. -/
structure IamInstanceProfileSpecification where
  Arn : String
deriving DecidableEq, Repr

/-- SDK `ec2.RunInstancesInput`; a `none` is a nil pointer handed to the SDK. -/
structure RunInstancesInput where
  ImageId : String
  InstanceType : String
  KeyName : String
  SubnetId : Option String
  MinCount : Nat
  MaxCount : Nat
  IamInstanceProfile : Option IamInstanceProfileSpecification
  SecurityGroupIds : List (Option String)
deriving DecidableEq, Repr

/-- SDK `ec2.IpPermission`, with each `ec2.IpRange` reduced to its `CidrIp`. -/
structure IpPermission where
  IpProtocol : String
  FromPort : Option Int
  ToPort : Option Int
  IpRanges : List String
deriving DecidableEq, Repr

/-- One call that leaves the process, with its request. -/
inductive Call where
  | ListInfrastructures
  | DescribeVpcs (filters : List Filter)
  | DescribeSecurityGroups (filters : List Filter)
  | GetInstanceProfile (instanceProfileName : String)
  | DescribeSubnets (filters : List Filter)
  | RunInstances (input : RunInstancesInput)
  | HttpGet (url : String)
  | AuthorizeSecurityGroupIngress (groupId : Option String) (ipPermissions : List IpPermission)
  | CreateTags (resources : List String) (tags : List Tag)
  | AllocateAddress
  | WaitUntilInstanceStatusOk (instanceIds : List String)
  | AssociateAddress (allocationId : String) (instanceId : String)
  | CreateSecurityGroup (groupName : String) (description : String) (vpcId : String)
  | DeleteSecurityGroup (groupId : String)
  | TerminateInstances (instanceIds : List String)
deriving DecidableEq, Repr

/-- SDK `ec2.Vpc`. -/
structure Vpc where
  VpcId : String
deriving DecidableEq, Repr

/-- SDK `ec2.SecurityGroup`. -/
structure SecurityGroup where
  GroupId : String
deriving DecidableEq, Repr

/-- SDK `ec2.DescribeSecurityGroupsOutput`. -/
structure DescribeSecurityGroupsOutput where
  SecurityGroups : List SecurityGroup
deriving DecidableEq, Repr

/-- SDK `ec2.Subnet`. -/
structure Subnet where
  SubnetId : String
  Tags : List Tag
deriving DecidableEq, Repr

/-- SDK `ec2.Instance`. -/
structure Instance where
  InstanceId : String
deriving DecidableEq, Repr

/-- SDK `ec2.AllocateAddressOutput`. -/
structure AllocateAddressOutput where
  AllocationId : String
  PublicIp : String
deriving DecidableEq, Repr

/-- What `http.Get` followed by reading the body can yield in `getMyIp`. -/
inductive HttpResult where
  | requestError (msg : String)
  | bodyError (msg : String)
  | body (text : String)
deriving DecidableEq, Repr

/-- The file at the ledger path `*s.dir`. -/
inductive FileState where
  | missing
  | unreadable
  | content (bytes : String)
deriving DecidableEq, Repr

/-- The external collaborators.  Each response is a function of the calls
issued before it (oldest first) and of the request.  `jsonMarshal` and
`jsonUnmarshal` stand for `encoding/json` at the type `Instances`.
`writeFile` is `ioutil.WriteFile`: `none` means success (the file then holds
the bytes), `some (msg, f)` a failure that leaves the file as `f`.
`removeFile` is `os.Remove`: `none` means success (the file is then gone). -/
structure Env where
  listInfrastructures : List Call → openshiftcluster.ListResult
  describeVpcs : List Call → List Filter → Except String (List Vpc)
  describeSecurityGroups : List Call → List Filter → Except String (Option DescribeSecurityGroupsOutput)
  getInstanceProfile : List Call → String → Except String String
  describeSubnets : List Call → List Filter → Except String (List Subnet)
  runInstances : List Call → RunInstancesInput → Except String (List Instance)
  httpGet : List Call → String → HttpResult
  authorizeSecurityGroupIngress : List Call → Option String → List IpPermission → Option String
  createTags : List Call → List String → List Tag → Option String
  allocateAddress : List Call → Except String AllocateAddressOutput
  waitUntilInstanceStatusOk : List Call → List String → Option String
  associateAddress : List Call → String → String → Option String
  createSecurityGroup : List Call → String → String → String → Except String String
  deleteSecurityGroup : List Call → String → Option String
  terminateInstances : List Call → List String → Option String
  jsonMarshal : Instances → Except String String
  jsonUnmarshal : String → Except String Instances
  writeFile : FileState → String → Option (String × FileState)
  removeFile : FileState → Option String

/-- The observable state of a run. -/
structure World where
  calls : List Call
  file : FileState
  removeAttempts : Nat
deriving DecidableEq, Repr

/-! ### The run monad -/

/-- A Go computation over the world. -/
def M (α : Type) : Type := World → Outcome α × World

/-- Return a value. -/
def M.pure {α : Type} (a : α) : M α := fun w => (.ret a, w)

/-- Sequencing: a panic or an exit ends the run. -/
def M.bind {α β : Type} (m : M α) (f : α → M β) : M β := fun w =>
  match m w with
  | (.ret a, w1) => f a w1
  | (.panic msg, w1) => (.panic msg, w1)
  | (.exit msg, w1) => (.exit msg, w1)

instance : Monad M where
  pure := M.pure
  bind := M.bind

/-- Go `panic` (also `log.Panic`, `log.Panicf` and run-time panics). -/
def goPanic {α : Type} (msg : String) : M α := fun w => (.panic msg, w)

/-- Go `log.Fatalf`: log, then `os.Exit(1)`. -/
def logFatalf {α : Type} (msg : String) : M α := fun w => (.exit msg, w)

/-- Issue a call: the response is read from the history, the call is recorded. -/
def issue {α : Type} (c : Call) (response : List Call → α) : M α := fun w =>
  (.ret (response w.calls), { w with calls := w.calls ++ [c] })

end aws

/-! ## Package fileutil -/

namespace fileutil

open aws in
/-- `ReadInstanceInfo`: `os.Stat`, `ioutil.ReadFile`, `json.Unmarshal`.  The
only caller passes `Instances` as `info`, so the decoder is taken at that type. -/
def ReadInstanceInfo (unmarshal : String → Except String Instances) (file : FileState) :
    Except String Instances :=
  match file with
  | .missing => .error "no InstanceInfo found at path"
  | .unreadable => .error "failed to read file at path"
  | .content bytes =>
    match unmarshal bytes with
    | .error _ => .error "failed to read json file at path"
    | .ok info => .ok info

end fileutil

/-! ## Package aws: operations -/

namespace aws

/-- Go `strings.Contains` on the characters of the two strings. -/
def containsChars : List Char → List Char → Bool
  | [], substr => substr.isEmpty
  | c :: cs, substr => substr.isPrefixOf (c :: cs) || containsChars cs substr

/-- Go `strings.Contains`. -/
def stringsContains (s substr : String) : Bool := containsChars s.data substr.data

/-- `readAWSInstanceInfo`: reads the ledger at `*s.dir`. -/
def readAWSInstanceInfo (env : Env) : M (Except String Instances) := fun w =>
  (.ret (fileutil.ReadInstanceInfo env.jsonUnmarshal w.file), w)

/-- `ioutil.WriteFile(*path, bytes, 0644)`. -/
def ioutilWriteFile (env : Env) (bytes : String) : M (Option String) := fun w =>
  match env.writeFile w.file bytes with
  | none => (.ret none, { w with file := .content bytes })
  | some (msg, f) => (.ret (some msg), { w with file := f })

/-- `os.Remove(*s.dir)`. -/
def osRemove (env : Env) : M (Option String) := fun w =>
  match env.removeFile w.file with
  | none => (.ret none, { w with file := .missing, removeAttempts := w.removeAttempts + 1 })
  | some msg => (.ret (some msg), { w with removeAttempts := w.removeAttempts + 1 })

/-- `writeAWSInstanceInfo`: read the past ledger, append it to `info`, marshal,
write the whole file. -/
def writeAWSInstanceInfo (env : Env) (info : Instances) : M (Option String) := do
  let pastinfo ← readAWSInstanceInfo env
  let info :=
    match pastinfo with
    | .ok past => info ++ past       -- for _, past := range *pastinfo: append(*info, past)
    | .error _ => info
  match env.jsonMarshal info with
  | .error err => return some ("failed to marshal information into json format, " ++ err)
  | .ok newinfo =>
    match ← ioutilWriteFile env newinfo with
    | some err =>
      return some ("failed to write instance info to file, deletion will have to be manual, " ++ err)
    | none => return none

/-- `deleteSG`. -/
def deleteSG (env : Env) (groupid : String) : M (Option String) :=
  issue (.DeleteSecurityGroup groupid) (fun h => env.deleteSecurityGroup h groupid)

/-- `deleteInstance`. -/
def deleteInstance (env : Env) (instanceID : String) : M (Option String) :=
  issue (.TerminateInstances [instanceID]) (fun h => env.terminateInstances h [instanceID])

/-- The inner loop of `DestroyWindowsVM`, `for _, sg := range inst.SG`, threading
the variable `err`. -/
def destroySGLoop (env : Env) : List SGInfo → Option String → M (Option String)
  | [], err => pure err
  | sg :: rest, err =>
    if sg.Groupid = "" then
      destroySGLoop env rest err     -- continue
    else do
      let err ← deleteSG env sg.Groupid
      destroySGLoop env rest err

/-- The outer loop of `DestroyWindowsVM`, `for _, inst := range *instances`,
threading the variable `err`. -/
def destroyLoop (env : Env) : List InstanceInfo → Option String → M (Option String)
  | [], err => pure err
  | inst :: rest, err => do
    let _ ← destroySGLoop env inst.SG err
    let err ← deleteInstance env inst.Instanceid
    destroyLoop env rest err

/-- `DestroyWindowsVM`. -/
def DestroyWindowsVM (env : Env) : M (Option String) := do
  match ← readAWSInstanceInfo env with
  | .error err => return some ("failed to read file, instance not deleted, " ++ err)
  | .ok instances =>
    let err ← destroyLoop env instances none
    match err with
    | none =>
      let _ ← osRemove env         -- a failure is only logged
      return none
    | some _ =>                    -- file not deleted due to deletion error
      return none

/-- `searchOrCreateSg`. -/
def searchOrCreateSg (env : Env) (infraID vpcID : String) : M (Except String SGInfo) := do
  let sg ← issue (.CreateSecurityGroup (infraID ++ "-winc-sg") "security group for rdp and all traffic" vpcID)
    (fun h => env.createSecurityGroup h (infraID ++ "-winc-sg") "security group for rdp and all traffic" vpcID)
  match sg with
  | .error _ =>
    -- could not create Security Group, attaching existing instead
    let filters : List Filter :=
      [{ Name := "vpc-id", Values := [vpcID] },
       { Name := "group-name", Values := [infraID ++ "-winc-sg"] }]
    let sgs ← issue (.DescribeSecurityGroups filters) (fun h => env.describeSecurityGroups h filters)
    match sgs with
    | .error err => return .error ("failed to create or find security group, " ++ err)
    | .ok none => return .error "failed to create or find security group, <nil>"
    | .ok (some out) =>
      match out.SecurityGroups with
      | [] => return .error "failed to create or find security group, <nil>"
      | first :: _ =>
        -- sgID = sgs.SecurityGroups[0].GroupId
        return .ok { Groupname := infraID ++ "-winc-sg", Groupid := first.GroupId }
  | .ok groupId =>
    -- sgID = sg.GroupId
    return .ok { Groupname := infraID ++ "-winc-sg", Groupid := groupId }

/-- `getMyIp`. -/
def getMyIp (env : Env) : M String := do
  let resp ← issue (.HttpGet "http://myexternalip.com/raw")
    (fun h => env.httpGet h "http://myexternalip.com/raw")
  match resp with
  | .requestError _ => goPanic "Failed to get external IP Addr"
  | .bodyError _ => goPanic "Failed to read external IP Addr"
  | .body text => return text

/-- `allocatePublicIp`. -/
def allocatePublicIp (env : Env) : M (Except String AllocateAddressOutput) := do
  let ip ← issue .AllocateAddress env.allocateAddress
  match ip with
  | .error err =>
    return .error ("failed to allocate an elastic ip, please assign public ip manually, " ++ err)
  | .ok ip => return .ok ip

/-- `getVPCIdByInfrastructure`. -/
def getVPCIdByInfrastructure (env : Env) (infra : openshiftcluster.Infrastructure) :
    M (Except String String) := do
  let filters : List Filter :=
    [{ Name := "tag:Name", Values := [infra.InfrastructureName ++ "-vpc"] },
     { Name := "state", Values := ["available"] }]
  let res ← issue (.DescribeVpcs filters) (fun h => env.describeVpcs h filters)
  match res with
  | .error err => return .error ("Unable to describe VPCs, " ++ err)
  | .ok vpcs =>
    match vpcs with
    | [] =>                       -- len(res.Vpcs) == 0
      return .error "no VPCs found"
    | _ :: _ :: _ =>              -- len(res.Vpcs) > 1
      goPanic "More than one VPCs are found, we returned the first one"
    | [vpc] =>                    -- return res.Vpcs[0].VpcId, err
      return .ok vpc.VpcId

/-- The loops of `getPubSubnetId`: the id of the first subnet that has a tag
`Name` whose value contains `infraID + "-public-"`. -/
def findPubSubnet (infraID : String) : List Subnet → Option String
  | [] => none
  | subnet :: rest =>
    if subnet.Tags.any (fun tag => tag.Key == "Name" && stringsContains tag.Value (infraID ++ "-public-")) then
      some subnet.SubnetId
    else
      findPubSubnet infraID rest

/-- `getPubSubnetId`. -/
def getPubSubnetId (env : Env) (vpcID infraID : String) : M (Except String String) := do
  let filters : List Filter := [{ Name := "vpc-id", Values := [vpcID] }]
  let subnets ← issue (.DescribeSubnets filters) (fun h => env.describeSubnets h filters)
  match subnets with
  | .error err =>
    return .error ("failed to find a public subnet based on the given VpcID: " ++ vpcID ++ ", " ++ err)
  | .ok subnets =>
    match findPubSubnet infraID subnets with
    | some subnetId => return .ok subnetId
    | none => return .error ("failed to find public subnet in vpc: " ++ vpcID)

/-- `getClusterWorkerSGID`. -/
def getClusterWorkerSGID (env : Env) (infraID : String) : M (Except String String) := do
  let filters : List Filter :=
    [{ Name := "tag:Name", Values := [infraID ++ "-worker-sg"] },
     { Name := "tag:kubernetes.io/cluster/" ++ infraID, Values := ["owned"] }]
  let sg ← issue (.DescribeSecurityGroups filters) (fun h => env.describeSecurityGroups h filters)
  match sg with
  | .error err =>
    return .error ("failed to attach security group of openshift cluster worker, " ++
      "please manually add it, " ++ err)
  | .ok none =>
    return .error ("no security groups is found for the cluster worker nodes, " ++
      "please add cluster worker SG manually")
  | .ok (some out) =>
    match out.SecurityGroups with
    | [] =>
      return .error ("no security groups is found for the cluster worker nodes, " ++
        "please add cluster worker SG manually")
    | _ :: _ :: _ =>
      return .error ("more than one security groups are found for the cluster worker nodes, " ++
        "please add cluster worker SG manually")
    | [group] => return .ok group.GroupId

/-- `getIAMWorkerRole`. -/
def getIAMWorkerRole (env : Env) (infraID : String) :
    M (Except String IamInstanceProfileSpecification) := do
  let iamspc ← issue (.GetInstanceProfile (infraID ++ "-worker-profile"))
    (fun h => env.getInstanceProfile h (infraID ++ "-worker-profile"))
  match iamspc with
  | .error err => return .error ("failed to find iam role, please attache manually " ++ err)
  | .ok arn => return .ok { Arn := arn }

/-- The value part of a Go `(T, error)` result whose error is not checked:
the pointer is nil when the callee returned an error. -/
def valueOrNil {α : Type} : Except String α → Option α
  | .ok a => some a
  | .error _ => none

/-- `CreateWindowsVM`.  The receiver fields `svcEC2`, `svcIAM` and `clientset`
are the collaborators of `env`; `*s.dir` is the file of the world. -/
def CreateWindowsVM (env : Env) (imageId instanceType keyName : String) : M (Option String) := do
  -- var sgID, instanceID *string; var createdInst InstanceInfo; var createdSG SGInfo
  let sgID : Option String := none
  let createdSG : SGInfo := { Groupid := "", Groupname := "" }
  -- get infrastructure from OC using kubeconfig info
  let listed ← issue .ListInfrastructures env.listInfrastructures
  match openshiftcluster.GetInfrastructure listed with
  | .error err => return some err
  | .ok infra =>
  let infraID := infra.InfrastructureName
  -- get vpc id of the openshift cluster
  match ← getVPCIdByInfrastructure env infra with
  | .error err => return some ("failed to find cluster vpc, " ++ err)
  | .ok vpcID =>
  -- get openshift cluster worker security groupID; `if err != nil` has an empty body
  let workerSG := valueOrNil (← getClusterWorkerSGID env infraID)
  -- get openshift cluster worker iam profile; err is not inspected
  let iamProfile := valueOrNil (← getIAMWorkerRole env infraID)
  -- get or create a public subnet under the vpcID; err is not inspected
  let subnetID := valueOrNil (← getPubSubnetId env vpcID infraID)
  -- Specify the details of the instance
  let input : RunInstancesInput :=
    { ImageId := imageId, InstanceType := instanceType, KeyName := keyName,
      SubnetId := subnetID, MinCount := 1, MaxCount := 1,
      IamInstanceProfile := iamProfile, SecurityGroupIds := [sgID, workerSG] }
  let runResult ← issue (.RunInstances input) (fun h => env.runInstances h input)
  match runResult with
  | .error err => logFatalf ("Could not create instance: " ++ err)
  | .ok instances =>
  match instances with
  | [] => goPanic "runtime error: index out of range"     -- runResult.Instances[0]
  | first :: _ =>
  let instanceID := first.InstanceId
  let createdInst : InstanceInfo := { Instanceid := instanceID, SG := [createdSG] }
  -- the argument getMyIp() is evaluated before the call is made
  let myIp ← getMyIp env
  let perms : List IpPermission :=
    [{ IpProtocol := "-1", FromPort := none, ToPort := none, IpRanges := ["10.0.0.0/16"] },
     { IpProtocol := "tcp", FromPort := some 3389, ToPort := some 3389, IpRanges := [myIp ++ "/32"] }]
  -- a failure is only logged
  let _ ← issue (.AuthorizeSecurityGroupIngress sgID perms)
    (fun h => env.authorizeSecurityGroupIngress h sgID perms)
  -- Add tags to the created instance; a failure is only logged
  let tags : List Tag := [{ Key := "Name", Value := infraID ++ "-winNode" }]
  let _ ← issue (.CreateTags [first.InstanceId] tags)
    (fun h => env.createTags h [first.InstanceId] tags)
  let ipRes ← allocatePublicIp env
  match ipRes with
  | .error _ => pure ()          -- logged
  | .ok ip =>
    -- failures of the wait and of the association are only logged
    let _ ← issue (.WaitUntilInstanceStatusOk [instanceID])
      (fun h => env.waitUntilInstanceStatusOk h [instanceID])
    let _ ← issue (.AssociateAddress ip.AllocationId instanceID)
      (fun h => env.associateAddress h ip.AllocationId instanceID)
  match ← writeAWSInstanceInfo env [createdInst] with
  | some err =>
    goPanic ("failed to write instance info to file, instance will not be able to be deleted, " ++ err)
  | none =>
  -- log.Printf("xfreerdp ...", *ipRes.PublicIp): ipRes is nil when the allocation failed
  match ipRes with
  | .error _ => goPanic "runtime error: invalid memory address or nil pointer dereference"
  | .ok _ => return none

/-! ### Sample collaborators used to run the operations on concrete inputs -/

/-- JSON text of a security-group entry (no escaping: the samples need none). -/
def renderSGInfo (sg : SGInfo) : String :=
  "\x7b\"Groupid\":\"" ++ sg.Groupid ++ "\",\"Groupname\":\"" ++ sg.Groupname ++ "\"\x7d"

/-- JSON text of a record. -/
def renderInstanceInfo (inst : InstanceInfo) : String :=
  "\x7b\"Instanceid\":\"" ++ inst.Instanceid ++ "\",\"SG\":[" ++
    ",".intercalate (inst.SG.map renderSGInfo) ++ "]\x7d"

/-- JSON text of a ledger. -/
def renderInstances (l : Instances) : String :=
  "[" ++ ",".intercalate (l.map renderInstanceInfo) ++ "]"

/-- A decoder that recognises the JSON text of the listed ledgers. -/
def decodeAmong (known : List Instances) (bytes : String) : Except String Instances :=
  match known.find? (fun l => renderInstances l == bytes) with
  | some l => .ok l
  | none => .error "invalid character"

/-- A record that owns one security group. -/
def ownedRecord : InstanceInfo :=
  { Instanceid := "i-0aa", SG := [{ Groupid := "sg-0aa", Groupname := "demo-winc-sg" }] }

/-- A record whose security group was not recorded. -/
def borrowedRecord : InstanceInfo :=
  { Instanceid := "i-0bb", SG := [{ Groupid := "", Groupname := "" }] }

/-- The record `CreateWindowsVM` writes for the launched instance `i-0cc`. -/
def launchedRecord : InstanceInfo :=
  { Instanceid := "i-0cc", SG := [{ Groupid := "", Groupname := "" }] }

/-- The ledgers the sample decoder knows. -/
def knownLedgers : List Instances :=
  [[], [ownedRecord], [borrowedRecord], [ownedRecord, borrowedRecord],
   [borrowedRecord, ownedRecord], [launchedRecord], [launchedRecord, ownedRecord]]

/-- A cloud and a cluster in which every call succeeds. -/
def sampleEnv : Env where
  listInfrastructures := fun _ =>
    { infra := some { Items := [{ InfrastructureName := "demo", PlatformType := "AWS",
                                  Region := "us-east-1" }] },
      err := none }
  describeVpcs := fun _ _ => .ok [{ VpcId := "vpc-01" }]
  describeSecurityGroups := fun _ _ => .ok (some { SecurityGroups := [{ GroupId := "sg-worker" }] })
  getInstanceProfile := fun _ _ => .ok "arn:aws:iam::1:instance-profile/demo-worker-profile"
  describeSubnets := fun _ _ =>
    .ok [{ SubnetId := "subnet-priv", Tags := [{ Key := "Name", Value := "demo-private-us-east-1a" }] },
         { SubnetId := "subnet-pub", Tags := [{ Key := "Name", Value := "demo-public-us-east-1a" }] }]
  runInstances := fun _ _ => .ok [{ InstanceId := "i-0cc" }]
  httpGet := fun _ _ => .body "203.0.113.7"
  authorizeSecurityGroupIngress := fun _ _ _ => none
  createTags := fun _ _ _ => none
  allocateAddress := fun _ => .ok { AllocationId := "eipalloc-01", PublicIp := "198.51.100.4" }
  waitUntilInstanceStatusOk := fun _ _ => none
  associateAddress := fun _ _ _ => none
  createSecurityGroup := fun _ _ _ _ => .ok "sg-0cc"
  deleteSecurityGroup := fun _ _ => none
  terminateInstances := fun _ _ => none
  jsonMarshal := fun l => .ok (renderInstances l)
  jsonUnmarshal := decodeAmong knownLedgers
  writeFile := fun _ _ => none
  removeFile := fun _ => none

/-- A world in which nothing has happened yet and the ledger file holds `file`. -/
def freshWorld (file : FileState) : World :=
  { calls := [], file := file, removeAttempts := 0 }

/-- The sample cloud, except that every security-group deletion fails. -/
def groupDeletionFailsEnv : Env :=
  { sampleEnv with deleteSecurityGroup := fun _ _ => some "DependencyViolation" }

/-- The sample cloud, except that the group `demo-winc-sg` already exists:
creating it fails and the lookup finds `sg-old`. -/
def groupExistsEnv : Env :=
  { sampleEnv with
    createSecurityGroup := fun _ _ _ _ => .error "InvalidGroup.Duplicate"
    describeSecurityGroups := fun _ _ => .ok (some { SecurityGroups := [{ GroupId := "sg-old" }] }) }

/-- The sample cloud, except that two available VPCs carry the tag `demo-vpc`. -/
def twoVpcsEnv : Env :=
  { sampleEnv with describeVpcs := fun _ _ => .ok [{ VpcId := "vpc-01" }, { VpcId := "vpc-02" }] }

/-- The sample cloud, except that the subnet query fails. -/
def subnetQueryFailsEnv : Env :=
  { sampleEnv with describeSubnets := fun _ _ => .error "RequestLimitExceeded" }

/-- The sample cloud, except that the address allocation fails. -/
def allocationFailsEnv : Env :=
  { sampleEnv with allocateAddress := fun _ => .error "AddressLimitExceeded" }

/-- The sample cloud, except that the wait for a healthy instance status and
the address association both fail. -/
def waitAndAssociationFailEnv : Env :=
  { sampleEnv with
    waitUntilInstanceStatusOk := fun _ _ => some "ResourceNotReady"
    associateAddress := fun _ _ _ => some "InvalidInstanceID" }

/-- The sample cloud, except that the request to the external-IP service fails. -/
def lookupFailsEnv : Env :=
  { sampleEnv with httpGet := fun _ _ => .requestError "dial tcp: i/o timeout" }

/-- The sample cloud, except that the body of the external-IP answer cannot be read. -/
def lookupBodyFailsEnv : Env :=
  { sampleEnv with httpGet := fun _ _ => .bodyError "unexpected EOF" }

/-- The sample cloud, except that every group deletion fails and so does the
termination of every instance other than `i-0bb`. -/
def onlyLastTerminationSucceedsEnv : Env :=
  { sampleEnv with
    deleteSecurityGroup := fun _ _ => some "DependencyViolation"
    terminateInstances := fun _ ids => if ids = ["i-0bb"] then none else some "OperationNotPermitted" }

/-- The sample cloud, except that the termination of `i-0bb` fails. -/
def lastTerminationFailsEnv : Env :=
  { sampleEnv with
    terminateInstances := fun _ ids => if ids = ["i-0bb"] then some "OperationNotPermitted" else none }

/-! ### Auxiliary predicates on runs -/

/-- Every call a computation adds to the history satisfies `P`. -/
def OnlyIssues {α : Type} (P : Call → Prop) (m : M α) : Prop :=
  ∀ w, ∃ added, (m w).2.calls = w.calls ++ added ∧ ∀ c ∈ added, P c

/-- Calls other than `CreateSecurityGroup`. -/
def notGroupCreation (c : Call) : Prop := ∀ n d v, c ≠ Call.CreateSecurityGroup n d v

end aws

end WincInstaller

/-! # Theorems -/

namespace WincInstaller

namespace openshiftcluster

/-! ## `GetInfrastructure` -/

/-- C1: `GetInfrastructure` enforces exactly one infrastructure resource.  For
every result of the list call: when the call failed (`err` is not nil), or no
list came back, or the list has zero items, it returns an error; when the list
has two or more items it returns an error and picks none; when the call
succeeded with exactly one item it returns that item. -/
theorem GetInfrastructure_exactly_one (res : ListResult) :
    ((res.err ≠ none ∨ res.infra = none ∨ ∃ l, res.infra = some l ∧ l.Items.length = 0) →
        ∃ msg, GetInfrastructure res = .error msg) ∧
    (∀ l, res.infra = some l → 2 ≤ l.Items.length → ∃ msg, GetInfrastructure res = .error msg) ∧
    (∀ l item, res.err = none → res.infra = some l → l.Items = [item] →
        GetInfrastructure res = .ok item) := by
  obtain ⟨infra, err⟩ := res
  refine ⟨?_, ?_, ?_⟩
  · rintro (h | h | ⟨l, h, hl⟩)
    · cases err with
      | none => exact absurd rfl h
      | some e => exact ⟨_, rfl⟩
    · cases err with
      | none => simp only at h; subst h; exact ⟨_, rfl⟩
      | some e => exact ⟨_, rfl⟩
    · cases err with
      | some e => exact ⟨_, rfl⟩
      | none =>
        simp only at h; subst h
        obtain ⟨items⟩ := l
        cases items with
        | nil => exact ⟨_, rfl⟩
        | cons a t => simp at hl
  · intro l h hl
    cases err with
    | some e => exact ⟨_, rfl⟩
    | none =>
      simp only at h; subst h
      obtain ⟨items⟩ := l
      match items, hl with
      | _ :: _ :: _, _ => exact ⟨_, rfl⟩
      | [_], hl => simp at hl
      | [], hl => simp at hl
  · intro l item he h hl
    simp only at he h
    subst he; subst h
    obtain ⟨items⟩ := l
    simp only at hl
    subst hl
    rfl

/-- The three cases of C1 on a failed call, on two items and on one item. -/
theorem GetInfrastructure_exactly_one_witness :
    (∃ msg, GetInfrastructure { infra := none, err := some "connection refused" } = .error msg) ∧
    (∃ msg, GetInfrastructure
      { infra := some { Items := [⟨"a", "AWS", "us-east-1"⟩, ⟨"b", "AWS", "us-east-1"⟩] }, err := none }
        = .error msg) ∧
    GetInfrastructure { infra := some { Items := [⟨"demo", "AWS", "us-east-1"⟩] }, err := none }
      = .ok ⟨"demo", "AWS", "us-east-1"⟩ :=
  ⟨(GetInfrastructure_exactly_one _).1 (Or.inl (by decide)),
   (GetInfrastructure_exactly_one _).2.1 _ rfl (by decide),
   (GetInfrastructure_exactly_one _).2.2 _ _ rfl rfl rfl⟩

end openshiftcluster

namespace aws

/-! ## Running the monad -/

theorem M.bind_run {α β : Type} (m : M α) (f : α → M β) (w : World) :
    (m >>= f) w =
      match m w with
      | (.ret a, w1) => f a w1
      | (.panic msg, w1) => (.panic msg, w1)
      | (.exit msg, w1) => (.exit msg, w1) := rfl

theorem M.pure_run {α : Type} (a : α) (w : World) : (pure a : M α) w = (.ret a, w) := rfl

theorem issue_run {α : Type} (c : Call) (r : List Call → α) (w : World) :
    issue c r w = (.ret (r w.calls), { w with calls := w.calls ++ [c] }) := rfl

/-! ## The loops of `DestroyWindowsVM` -/

/-- The inner loop returns, and issues one deletion per entry with a non-empty
group id, in order, whatever the deletions answer. -/
theorem destroySGLoop_run (env : Env) (sgs : List SGInfo) (err : Option String) (w : World) :
    ∃ e, destroySGLoop env sgs err w =
      (.ret e, { w with calls := w.calls ++
        (sgs.filter (fun sg => sg.Groupid ≠ "")).map (fun sg => Call.DeleteSecurityGroup sg.Groupid) }) := by
  induction sgs generalizing err w with
  | nil => exact ⟨err, by simp [destroySGLoop]; rfl⟩
  | cons sg rest ih =>
    by_cases h : sg.Groupid = ""
    · obtain ⟨e, he⟩ := ih err w
      exact ⟨e, by simp [destroySGLoop, h, he]⟩
    · obtain ⟨e, he⟩ := ih (env.deleteSecurityGroup w.calls sg.Groupid)
        { w with calls := w.calls ++ [Call.DeleteSecurityGroup sg.Groupid] }
      exact ⟨e, by simp [destroySGLoop, h, M.bind_run, deleteSG, issue_run, he]⟩

/-- The outer loop returns, leaves the file alone, and issues for every record
its group deletions followed by its termination. -/
theorem destroyLoop_run (env : Env) (l : List InstanceInfo) (err : Option String) (w : World) :
    ∃ e, destroyLoop env l err w =
      (.ret e, { w with calls := w.calls ++
        (l.flatMap (fun inst =>
          (inst.SG.filter (fun sg => sg.Groupid ≠ "")).map (fun sg => Call.DeleteSecurityGroup sg.Groupid)
            ++ [Call.TerminateInstances [inst.Instanceid]])) }) := by
  induction l generalizing err w with
  | nil => exact ⟨err, by simp [destroyLoop]; rfl⟩
  | cons inst rest ih =>
    obtain ⟨e1, h1⟩ := destroySGLoop_run env inst.SG err w
    obtain ⟨e, he⟩ := ih (env.terminateInstances (w.calls ++
        (inst.SG.filter (fun sg => sg.Groupid ≠ "")).map (fun sg => Call.DeleteSecurityGroup sg.Groupid))
        [inst.Instanceid])
      { w with calls := (w.calls ++
        (inst.SG.filter (fun sg => sg.Groupid ≠ "")).map (fun sg => Call.DeleteSecurityGroup sg.Groupid))
          ++ [Call.TerminateInstances [inst.Instanceid]] }
    refine ⟨e, ?_⟩
    simp only [destroyLoop, M.bind_run, h1, deleteInstance, issue_run, he]
    simp

/-- The calls of a whole `DestroyWindowsVM` run over a readable ledger. -/
theorem DestroyWindowsVM_run (env : Env) (w : World) (ledger : Instances)
    (hread : fileutil.ReadInstanceInfo env.jsonUnmarshal w.file = .ok ledger) :
    (DestroyWindowsVM env w).1 = .ret none ∧
    (DestroyWindowsVM env w).2.calls = w.calls ++
        ledger.flatMap (fun inst =>
          (inst.SG.filter (fun sg => sg.Groupid ≠ "")).map (fun sg => Call.DeleteSecurityGroup sg.Groupid)
            ++ [Call.TerminateInstances [inst.Instanceid]]) := by
  obtain ⟨e, he⟩ := destroyLoop_run env ledger none w
  cases e with
  | none =>
    simp only [DestroyWindowsVM, M.bind_run, readAWSInstanceInfo, hread, he, osRemove]
    cases env.removeFile w.file <;> simp [M.pure_run] <;> constructor <;> rfl
  | some msg =>
    simp only [DestroyWindowsVM, M.bind_run, readAWSInstanceInfo, hread, he]
    constructor <;> rfl

/-! ## Calls issued by a computation -/

theorem OnlyIssues.pure {α : Type} (P : Call → Prop) (a : α) : OnlyIssues P (pure a : M α) :=
  fun _ => ⟨[], by rw [List.append_nil]; rfl, by simp⟩

theorem OnlyIssues.goPanic {α : Type} (P : Call → Prop) (msg : String) :
    OnlyIssues P (goPanic msg : M α) :=
  fun _ => ⟨[], by simp [aws.goPanic], by simp⟩

theorem OnlyIssues.logFatalf {α : Type} (P : Call → Prop) (msg : String) :
    OnlyIssues P (logFatalf msg : M α) :=
  fun _ => ⟨[], by simp [aws.logFatalf], by simp⟩

theorem OnlyIssues.issue {α : Type} (P : Call → Prop) (c : Call) (r : List Call → α) (hc : P c) :
    OnlyIssues P (issue c r) :=
  fun _ => ⟨[c], by simp [issue_run], by simpa using hc⟩

theorem OnlyIssues.bind {α β : Type} (P : Call → Prop) (m : M α) (f : α → M β)
    (hm : OnlyIssues P m) (hf : ∀ a, OnlyIssues P (f a)) : OnlyIssues P (m >>= f) := by
  intro w
  obtain ⟨added, h1, h2⟩ := hm w
  rw [M.bind_run]
  rcases hmw : m w with ⟨o, w1⟩
  rw [hmw] at h1
  cases o with
  | ret a =>
    obtain ⟨added2, h3, h4⟩ := hf a w1
    refine ⟨added ++ added2, ?_, ?_⟩
    · simp only [h3]; simp only at h1; rw [h1, List.append_assoc]
    · intro c hc
      rcases List.mem_append.1 hc with h | h
      · exact h2 c h
      · exact h4 c h
  | panic msg => exact ⟨added, h1, h2⟩
  | exit msg => exact ⟨added, h1, h2⟩

theorem OnlyIssues.readAWSInstanceInfo (P : Call → Prop) (env : Env) :
    OnlyIssues P (readAWSInstanceInfo env) :=
  fun _ => ⟨[], by simp [aws.readAWSInstanceInfo], by simp⟩

theorem OnlyIssues.ioutilWriteFile (P : Call → Prop) (env : Env) (bytes : String) :
    OnlyIssues P (ioutilWriteFile env bytes) := by
  intro w
  refine ⟨[], ?_, by simp⟩
  simp only [aws.ioutilWriteFile]
  cases env.writeFile w.file bytes <;> simp

theorem OnlyIssues.writeAWSInstanceInfo (P : Call → Prop) (env : Env) (info : Instances) :
    OnlyIssues P (writeAWSInstanceInfo env info) := by
  unfold aws.writeAWSInstanceInfo
  refine OnlyIssues.bind P _ _ (OnlyIssues.readAWSInstanceInfo P env) (fun pastinfo => ?_)
  dsimp only
  split
  · exact OnlyIssues.pure P _
  · refine OnlyIssues.bind P _ _ (OnlyIssues.ioutilWriteFile P env _) (fun r => ?_)
    split <;> exact OnlyIssues.pure P _


/-! ## `DestroyWindowsVM` -/

/-- C2: destroy is best-effort.  For every ledger that is read successfully and
every behaviour of the cloud (every pattern of failing deletions and
terminations), `DestroyWindowsVM` returns without error or panic and the calls
it issues are exactly, record by record in ledger order, one group deletion
for each entry with a non-empty group id followed by one termination of the
record's instance. -/
theorem DestroyWindowsVM_best_effort (env : Env) (file : FileState) (ledger : Instances)
    (hread : fileutil.ReadInstanceInfo env.jsonUnmarshal file = .ok ledger) :
    (DestroyWindowsVM env (freshWorld file)).1 = .ret none ∧
    (DestroyWindowsVM env (freshWorld file)).2.calls =
      ledger.flatMap (fun inst =>
        (inst.SG.filter (fun sg => sg.Groupid ≠ "")).map (fun sg => Call.DeleteSecurityGroup sg.Groupid)
          ++ [Call.TerminateInstances [inst.Instanceid]]) := by
  have h := DestroyWindowsVM_run env (freshWorld file) ledger hread
  simpa [freshWorld] using h

/-- C2 on a ledger of two records while every group deletion fails. -/
theorem DestroyWindowsVM_best_effort_witness :
    (DestroyWindowsVM groupDeletionFailsEnv
        (freshWorld (.content (renderInstances [ownedRecord, borrowedRecord])))).1 = .ret none ∧
    (DestroyWindowsVM groupDeletionFailsEnv
        (freshWorld (.content (renderInstances [ownedRecord, borrowedRecord])))).2.calls =
      [Call.DeleteSecurityGroup "sg-0aa", Call.TerminateInstances ["i-0aa"],
       Call.TerminateInstances ["i-0bb"]] :=
  DestroyWindowsVM_best_effort groupDeletionFailsEnv
    (.content (renderInstances [ownedRecord, borrowedRecord])) [ownedRecord, borrowedRecord] (by rfl)

/-- C3: destroy skips empty groups.  For every ledger that is read successfully
and every behaviour of the cloud, no deletion call for the empty group id is
issued, and a record all of whose entries have an empty group id (or that has
no entry) contributes exactly one call, the termination of its instance,
between the calls of the records before it and of the records after it. -/
theorem DestroyWindowsVM_skips_empty_groups (env : Env) (file : FileState) (ledger : Instances)
    (hread : fileutil.ReadInstanceInfo env.jsonUnmarshal file = .ok ledger) :
    Call.DeleteSecurityGroup "" ∉ (DestroyWindowsVM env (freshWorld file)).2.calls ∧
    (∀ inst, (∀ sg ∈ inst.SG, sg.Groupid = "") → ∀ before after, ledger = before ++ inst :: after →
      (DestroyWindowsVM env (freshWorld file)).2.calls =
        before.flatMap (fun inst =>
          (inst.SG.filter (fun sg => sg.Groupid ≠ "")).map (fun sg => Call.DeleteSecurityGroup sg.Groupid)
            ++ [Call.TerminateInstances [inst.Instanceid]])
        ++ [Call.TerminateInstances [inst.Instanceid]] ++
        after.flatMap (fun inst =>
          (inst.SG.filter (fun sg => sg.Groupid ≠ "")).map (fun sg => Call.DeleteSecurityGroup sg.Groupid)
            ++ [Call.TerminateInstances [inst.Instanceid]])) := by
  have h := (DestroyWindowsVM_run env (freshWorld file) ledger hread).2
  simp only [freshWorld, List.nil_append] at h
  simp only [freshWorld]
  rw [h]
  constructor
  · simp
  · intro inst hinst before after hl
    subst hl
    have : inst.SG.filter (fun sg => sg.Groupid ≠ "") = [] := by
      simp [List.filter_eq_nil_iff]
      exact hinst
    simp only [List.flatMap_append, List.flatMap_cons, this, List.map_nil, List.nil_append, List.append_assoc]

/-- C3 on the ledger `[ownedRecord, borrowedRecord]`: the second record only
has its instance terminated. -/
theorem DestroyWindowsVM_skips_empty_groups_witness :
    Call.DeleteSecurityGroup "" ∉
      (DestroyWindowsVM sampleEnv
        (freshWorld (.content (renderInstances [ownedRecord, borrowedRecord])))).2.calls ∧
    (DestroyWindowsVM sampleEnv
        (freshWorld (.content (renderInstances [ownedRecord, borrowedRecord])))).2.calls =
      [Call.DeleteSecurityGroup "sg-0aa", Call.TerminateInstances ["i-0aa"]]
        ++ [Call.TerminateInstances ["i-0bb"]] ++ [] :=
  have h := DestroyWindowsVM_skips_empty_groups sampleEnv
    (.content (renderInstances [ownedRecord, borrowedRecord])) [ownedRecord, borrowedRecord] (by rfl)
  ⟨h.1, h.2 borrowedRecord (by decide) [ownedRecord] [] rfl⟩

/-- C4 fails on the code: with the ledger `[ownedRecord]`, the deletion of the
group `sg-0aa` fails, the termination of `i-0aa` succeeds, and the run removes
the ledger file all the same (the variable `err` is overwritten by the
termination). -/
theorem DestroyWindowsVM_removes_ledger_after_failed_group_deletion :
    groupDeletionFailsEnv.deleteSecurityGroup [] "sg-0aa" = some "DependencyViolation" ∧
    DestroyWindowsVM groupDeletionFailsEnv (freshWorld (.content (renderInstances [ownedRecord]))) =
      (.ret none,
       { calls := [Call.DeleteSecurityGroup "sg-0aa", Call.TerminateInstances ["i-0aa"]],
         file := .missing, removeAttempts := 1 }) := by
  decide

/-- C5 as stated fails: with no file at the ledger path, `DestroyWindowsVM`
does not return without error. -/
theorem DestroyWindowsVM_missing_ledger_is_an_error :
    ¬ ((DestroyWindowsVM sampleEnv (freshWorld .missing)).1 = .ret none ∧
       (DestroyWindowsVM sampleEnv (freshWorld .missing)).2.calls = [] ∧
       (DestroyWindowsVM sampleEnv (freshWorld .missing)).2.removeAttempts = 0) := by
  decide

/-- C5, amended: when no file exists at the ledger path, `DestroyWindowsVM`
returns the error of the failed read, makes no cloud call and does not attempt
to remove the file (the world is left as it was). -/
theorem DestroyWindowsVM_missing_ledger (env : Env) (w : World) (hmissing : w.file = .missing) :
    DestroyWindowsVM env w =
      (.ret (some "failed to read file, instance not deleted, no InstanceInfo found at path"), w) := by
  simp [DestroyWindowsVM, M.bind_run, readAWSInstanceInfo, hmissing, fileutil.ReadInstanceInfo]
  rfl

/-- The amended C5 on the sample cloud. -/
theorem DestroyWindowsVM_missing_ledger_witness :
    DestroyWindowsVM sampleEnv (freshWorld .missing) =
      (.ret (some "failed to read file, instance not deleted, no InstanceInfo found at path"),
       { calls := [], file := .missing, removeAttempts := 0 }) :=
  DestroyWindowsVM_missing_ledger sampleEnv (freshWorld .missing) rfl

/-! ## `writeAWSInstanceInfo` -/

/-- A successful `writeAWSInstanceInfo` leaves the marshalled merge in the file. -/
theorem writeAWSInstanceInfo_run (env : Env) (info : Instances) (w w1 : World)
    (hwrite : writeAWSInstanceInfo env info w = (.ret none, w1)) :
    (∀ past, fileutil.ReadInstanceInfo env.jsonUnmarshal w.file = .ok past →
      ∃ bytes, env.jsonMarshal (info ++ past) = .ok bytes ∧ w1.file = .content bytes) ∧
    (∀ msg, fileutil.ReadInstanceInfo env.jsonUnmarshal w.file = .error msg →
      ∃ bytes, env.jsonMarshal info = .ok bytes ∧ w1.file = .content bytes) := by
  have key : ∀ merged : Instances,
      (match env.jsonMarshal merged with
        | .error err => (pure (some ("failed to marshal information into json format, " ++ err)) : M _)
        | .ok newinfo => do
          match ← ioutilWriteFile env newinfo with
          | some err =>
            return some ("failed to write instance info to file, deletion will have to be manual, " ++ err)
          | none => return none) w = (.ret none, w1) →
      ∃ bytes, env.jsonMarshal merged = .ok bytes ∧ w1.file = .content bytes := by
    intro merged h
    cases hm : env.jsonMarshal merged with
    | error e => rw [hm] at h; simp [pure, M.pure] at h
    | ok bytes =>
      refine ⟨bytes, rfl, ?_⟩
      simp only [hm, ioutilWriteFile, M.bind_run] at h
      cases hwf : env.writeFile w.file bytes with
      | none =>
        simp only [hwf, M.pure_run] at h
        injection h with _ h2
        rw [← h2]
      | some p => simp [hwf, pure, M.pure] at h
  simp only [writeAWSInstanceInfo, M.bind_run, readAWSInstanceInfo] at hwrite
  constructor
  · intro past hpast
    rw [hpast] at hwrite
    exact key _ hwrite
  · intro msg hmsg
    rw [hmsg] at hwrite
    exact key _ hwrite

/-- C6: create prepends to the ledger.  After a successful
`writeAWSInstanceInfo` of the new records `info`: when the persisted ledger
`past` could be read, the file holds exactly the JSON encoding of
`info ++ past`, and reading it back (with a decoder that inverts the encoder on
it) yields `info ++ past`; when no ledger could be read, the same holds with
`info` alone. -/
theorem writeAWSInstanceInfo_prepends (env : Env) (info : Instances) (w w1 : World)
    (hwrite : writeAWSInstanceInfo env info w = (.ret none, w1)) :
    (∀ past, fileutil.ReadInstanceInfo env.jsonUnmarshal w.file = .ok past →
      (∃ bytes, env.jsonMarshal (info ++ past) = .ok bytes ∧ w1.file = .content bytes) ∧
      ((∀ bytes, env.jsonMarshal (info ++ past) = .ok bytes → env.jsonUnmarshal bytes = .ok (info ++ past)) →
        fileutil.ReadInstanceInfo env.jsonUnmarshal w1.file = .ok (info ++ past))) ∧
    (∀ msg, fileutil.ReadInstanceInfo env.jsonUnmarshal w.file = .error msg →
      (∃ bytes, env.jsonMarshal info = .ok bytes ∧ w1.file = .content bytes) ∧
      ((∀ bytes, env.jsonMarshal info = .ok bytes → env.jsonUnmarshal bytes = .ok info) →
        fileutil.ReadInstanceInfo env.jsonUnmarshal w1.file = .ok info)) := by
  constructor
  · intro past hpast
    obtain ⟨bytes, hb, hf⟩ := (writeAWSInstanceInfo_run env info w w1 hwrite).1 past hpast
    refine ⟨⟨bytes, hb, hf⟩, fun hround => ?_⟩
    rw [hf]
    simp [fileutil.ReadInstanceInfo, hround bytes hb]
  · intro msg hmsg
    obtain ⟨bytes, hb, hf⟩ := (writeAWSInstanceInfo_run env info w w1 hwrite).2 msg hmsg
    refine ⟨⟨bytes, hb, hf⟩, fun hround => ?_⟩
    rw [hf]
    simp [fileutil.ReadInstanceInfo, hround bytes hb]

/-- C6 on the sample cloud: `[launchedRecord]` is written in front of the
persisted `[ownedRecord]`. -/
theorem writeAWSInstanceInfo_prepends_witness :
    writeAWSInstanceInfo sampleEnv [launchedRecord] (freshWorld (.content (renderInstances [ownedRecord])))
      = (.ret none, freshWorld (.content (renderInstances [launchedRecord, ownedRecord]))) ∧
    fileutil.ReadInstanceInfo sampleEnv.jsonUnmarshal (.content (renderInstances [ownedRecord]))
      = .ok [ownedRecord] ∧
    (∃ bytes, sampleEnv.jsonMarshal ([launchedRecord] ++ [ownedRecord]) = .ok bytes ∧
      (freshWorld (.content (renderInstances [launchedRecord, ownedRecord]))).file = .content bytes) ∧
    fileutil.ReadInstanceInfo sampleEnv.jsonUnmarshal
      (freshWorld (.content (renderInstances [launchedRecord, ownedRecord]))).file
        = .ok ([launchedRecord] ++ [ownedRecord]) :=
  have h := (writeAWSInstanceInfo_prepends sampleEnv [launchedRecord]
    (freshWorld (.content (renderInstances [ownedRecord])))
    (freshWorld (.content (renderInstances [launchedRecord, ownedRecord]))) (by rfl)).1
      [ownedRecord] (by rfl)
  ⟨by rfl, by rfl, h.1, h.2 (fun bytes hb => by
    have hb2 : renderInstances ([launchedRecord] ++ [ownedRecord]) = bytes := by
      injection hb
    rw [← hb2]; rfl)⟩

/-! ## `CreateWindowsVM` and its helpers -/

/-- The four cases of `getVPCIdByInfrastructure`, for every answer of the query. -/
theorem getVPCIdByInfrastructure_cases (env : Env) (infra : openshiftcluster.Infrastructure)
    (w : World) :
    (∀ e, env.describeVpcs w.calls
        [⟨"tag:Name", [infra.InfrastructureName ++ "-vpc"]⟩, ⟨"state", ["available"]⟩] = .error e →
      (getVPCIdByInfrastructure env infra w).1 = .ret (.error ("Unable to describe VPCs, " ++ e))) ∧
    (env.describeVpcs w.calls
        [⟨"tag:Name", [infra.InfrastructureName ++ "-vpc"]⟩, ⟨"state", ["available"]⟩] = .ok [] →
      (getVPCIdByInfrastructure env infra w).1 = .ret (.error "no VPCs found")) ∧
    (∀ vpc, env.describeVpcs w.calls
        [⟨"tag:Name", [infra.InfrastructureName ++ "-vpc"]⟩, ⟨"state", ["available"]⟩] = .ok [vpc] →
      (getVPCIdByInfrastructure env infra w).1 = .ret (.ok vpc.VpcId)) ∧
    (∀ vpc1 vpc2 rest, env.describeVpcs w.calls
        [⟨"tag:Name", [infra.InfrastructureName ++ "-vpc"]⟩, ⟨"state", ["available"]⟩]
          = .ok (vpc1 :: vpc2 :: rest) →
      (getVPCIdByInfrastructure env infra w).1 =
        .panic "More than one VPCs are found, we returned the first one") := by
  refine ⟨?_, ?_, ?_, ?_⟩ <;> intros <;>
    simp_all [getVPCIdByInfrastructure, M.bind_run, issue_run] <;> rfl

/-- Both paths of `searchOrCreateSg` that return a record put a group id in it. -/
theorem searchOrCreateSg_cases (env : Env) (infraID vpcID : String) (w : World) :
    (∀ groupId, env.createSecurityGroup w.calls (infraID ++ "-winc-sg")
        "security group for rdp and all traffic" vpcID = .ok groupId →
      (searchOrCreateSg env infraID vpcID w).1 =
        .ret (.ok { Groupname := infraID ++ "-winc-sg", Groupid := groupId })) ∧
    (∀ e first rest, env.createSecurityGroup w.calls (infraID ++ "-winc-sg")
        "security group for rdp and all traffic" vpcID = .error e →
      env.describeSecurityGroups
        (w.calls ++ [Call.CreateSecurityGroup (infraID ++ "-winc-sg")
          "security group for rdp and all traffic" vpcID])
        [⟨"vpc-id", [vpcID]⟩, ⟨"group-name", [infraID ++ "-winc-sg"]⟩]
          = .ok (some { SecurityGroups := first :: rest }) →
      searchOrCreateSg env infraID vpcID w =
        (.ret (.ok { Groupname := infraID ++ "-winc-sg", Groupid := first.GroupId }),
         { w with calls := w.calls ++
            [Call.CreateSecurityGroup (infraID ++ "-winc-sg")
              "security group for rdp and all traffic" vpcID,
             Call.DescribeSecurityGroups
              [⟨"vpc-id", [vpcID]⟩, ⟨"group-name", [infraID ++ "-winc-sg"]⟩]] })) := by
  refine ⟨?_, ?_⟩ <;> intros <;>
    simp_all [searchOrCreateSg, M.bind_run, issue_run] <;> rfl

/-- A failed infrastructure resolution aborts `CreateWindowsVM` after the list call. -/
theorem CreateWindowsVM_aborts_on_infrastructure_failure (env : Env)
    (imageId instanceType keyName : String) (w : World) (e : String)
    (hinfra : openshiftcluster.GetInfrastructure (env.listInfrastructures w.calls) = .error e) :
    CreateWindowsVM env imageId instanceType keyName w =
      (.ret (some e), { w with calls := w.calls ++ [Call.ListInfrastructures] }) := by
  simp [CreateWindowsVM, M.bind_run, issue_run, hinfra]
  rfl

/-- A failed VPC resolution aborts `CreateWindowsVM` after the VPC query. -/
theorem CreateWindowsVM_aborts_on_vpc_failure (env : Env)
    (imageId instanceType keyName : String) (w w1 : World)
    (infra : openshiftcluster.Infrastructure) (e : String)
    (hinfra : openshiftcluster.GetInfrastructure (env.listInfrastructures w.calls) = .ok infra)
    (hvpc : getVPCIdByInfrastructure env infra { w with calls := w.calls ++ [Call.ListInfrastructures] }
      = (.ret (.error e), w1)) :
    CreateWindowsVM env imageId instanceType keyName w =
      (.ret (some ("failed to find cluster vpc, " ++ e)), w1) := by
  simp [CreateWindowsVM, M.bind_run, issue_run, hinfra, hvpc]
  rfl

/-- Whatever the collaborators answer, `CreateWindowsVM` adds no
`CreateSecurityGroup` call to the history. -/
theorem CreateWindowsVM_onlyIssues (env : Env) (imageId instanceType keyName : String) :
    OnlyIssues notGroupCreation (CreateWindowsVM env imageId instanceType keyName) := by
  unfold CreateWindowsVM getVPCIdByInfrastructure getClusterWorkerSGID getIAMWorkerRole
    getPubSubnetId getMyIp allocatePublicIp
  repeat' first
    | exact OnlyIssues.pure _ _
    | exact OnlyIssues.goPanic _ _
    | exact OnlyIssues.logFatalf _ _
    | exact OnlyIssues.writeAWSInstanceInfo _ _ _
    | exact OnlyIssues.issue _ _ _ (by intro n d v h; cases h)
    | refine OnlyIssues.bind _ _ _ ?_ (fun _ => ?_)
    | split

/-- No run of `CreateWindowsVM` creates a security group. -/
theorem CreateWindowsVM_never_creates_group (env : Env) (imageId instanceType keyName : String)
    (file : FileState) (n d v : String) :
    Call.CreateSecurityGroup n d v ∉
      (CreateWindowsVM env imageId instanceType keyName (freshWorld file)).2.calls := by
  obtain ⟨added, h1, h2⟩ := CreateWindowsVM_onlyIssues env imageId instanceType keyName (freshWorld file)
  rw [h1]
  simp only [freshWorld, List.nil_append]
  intro hmem
  exact h2 _ hmem n d v rfl

/-- C7 fails on the code: on the sample cloud, where creating the group
`demo-winc-sg` would succeed with id `sg-0cc`, a fully successful
`CreateWindowsVM` never calls `searchOrCreateSg` (no `CreateSecurityGroup` and
no lookup of `demo-winc-sg` is issued) and the record it writes for `i-0cc`
carries the empty security-group entry. -/
theorem CreateWindowsVM_records_empty_group :
    CreateWindowsVM sampleEnv "ami-0b8d82dea356226d3" "m4.large" "libra" (freshWorld .missing) =
      (.ret none,
       { calls :=
          [Call.ListInfrastructures,
           Call.DescribeVpcs [⟨"tag:Name", ["demo-vpc"]⟩, ⟨"state", ["available"]⟩],
           Call.DescribeSecurityGroups
             [⟨"tag:Name", ["demo-worker-sg"]⟩, ⟨"tag:kubernetes.io/cluster/demo", ["owned"]⟩],
           Call.GetInstanceProfile "demo-worker-profile",
           Call.DescribeSubnets [⟨"vpc-id", ["vpc-01"]⟩],
           Call.RunInstances
             { ImageId := "ami-0b8d82dea356226d3", InstanceType := "m4.large", KeyName := "libra",
               SubnetId := some "subnet-pub", MinCount := 1, MaxCount := 1,
               IamInstanceProfile := some ⟨"arn:aws:iam::1:instance-profile/demo-worker-profile"⟩,
               SecurityGroupIds := [none, some "sg-worker"] },
           Call.HttpGet "http://myexternalip.com/raw",
           Call.AuthorizeSecurityGroupIngress none
             [⟨"-1", none, none, ["10.0.0.0/16"]⟩, ⟨"tcp", some 3389, some 3389, ["203.0.113.7/32"]⟩],
           Call.CreateTags ["i-0cc"] [⟨"Name", "demo-winNode"⟩],
           Call.AllocateAddress,
           Call.WaitUntilInstanceStatusOk ["i-0cc"],
           Call.AssociateAddress "eipalloc-01" "i-0cc"],
         file := .content (renderInstances [{ Instanceid := "i-0cc", SG := [{ Groupid := "", Groupname := "" }] }]),
         removeAttempts := 0 }) := by
  decide

/-- C8 fails on the code: when the group `demo-winc-sg` already exists (the
create call fails, the lookup finds `sg-old`), `searchOrCreateSg` creates no
group but returns a record that carries the id `sg-old` of the reused group,
not the empty id. -/
theorem searchOrCreateSg_reuse_records_found_id :
    searchOrCreateSg groupExistsEnv "demo" "vpc-01" (freshWorld .missing) =
      (.ret (.ok { Groupid := "sg-old", Groupname := "demo-winc-sg" }),
       { calls :=
          [Call.CreateSecurityGroup "demo-winc-sg" "security group for rdp and all traffic" "vpc-01",
           Call.DescribeSecurityGroups [⟨"vpc-id", ["vpc-01"]⟩, ⟨"group-name", ["demo-winc-sg"]⟩]],
         file := .missing, removeAttempts := 0 }) := by
  rfl

/-- C9 fails on the code: when two VPCs match, `getVPCIdByInfrastructure`
panics (`log.Panicf`) instead of returning the id of the first match. -/
theorem getVPCIdByInfrastructure_panics_on_two_vpcs :
    getVPCIdByInfrastructure twoVpcsEnv ⟨"demo", "AWS", "us-east-1"⟩ (freshWorld .missing) =
      (.panic "More than one VPCs are found, we returned the first one",
       { calls := [Call.DescribeVpcs [⟨"tag:Name", ["demo-vpc"]⟩, ⟨"state", ["available"]⟩]],
         file := .missing, removeAttempts := 0 }) := by
  rfl

/-- C10 fails on the code: when the public-subnet resolution fails (the subnet
query returns an error), `CreateWindowsVM` still issues `RunInstances`, with a
nil subnet id, and returns without error. -/
theorem CreateWindowsVM_launches_without_subnet :
    (getPubSubnetId subnetQueryFailsEnv "vpc-01" "demo" (freshWorld .missing)).1 =
      .ret (.error ("failed to find a public subnet based on the given VpcID: vpc-01, RequestLimitExceeded")) ∧
    (CreateWindowsVM subnetQueryFailsEnv "ami-0b8d82dea356226d3" "m4.large" "libra"
      (freshWorld .missing)).1 = .ret none ∧
    Call.RunInstances
      { ImageId := "ami-0b8d82dea356226d3", InstanceType := "m4.large", KeyName := "libra",
        SubnetId := none, MinCount := 1, MaxCount := 1,
        IamInstanceProfile := some ⟨"arn:aws:iam::1:instance-profile/demo-worker-profile"⟩,
        SecurityGroupIds := [none, some "sg-worker"] } ∈
      (CreateWindowsVM subnetQueryFailsEnv "ami-0b8d82dea356226d3" "m4.large" "libra"
        (freshWorld .missing)).2.calls := by
  refine ⟨by rfl, by decide, by decide⟩

/-! ## `CreateWindowsVM` after the launch -/

/-- The answers of the wait for a healthy instance status and of the address
association have no influence on a run of `CreateWindowsVM`: both are only
logged. -/
theorem CreateWindowsVM_ignores_wait_and_association (env : Env)
    (imageId instanceType keyName : String) (w : World)
    (wait : List Call → List String → Option String)
    (associate : List Call → String → String → Option String) :
    CreateWindowsVM { env with waitUntilInstanceStatusOk := wait, associateAddress := associate }
        imageId instanceType keyName w =
      CreateWindowsVM env imageId instanceType keyName w := by
  rfl

/-- C11 fails on the code: when the launch and the ledger write succeed but the
address allocation fails, `CreateWindowsVM` persists the record and then
panics on the nil `ipRes` in its last log line, instead of returning. -/
theorem CreateWindowsVM_panics_after_failed_allocation :
    (allocatePublicIp allocationFailsEnv (freshWorld .missing)).1 =
      .ret (.error "failed to allocate an elastic ip, please assign public ip manually, AddressLimitExceeded") ∧
    (CreateWindowsVM allocationFailsEnv "ami-0b8d82dea356226d3" "m4.large" "libra"
      (freshWorld .missing)).1 =
        .panic "runtime error: invalid memory address or nil pointer dereference" ∧
    (CreateWindowsVM allocationFailsEnv "ami-0b8d82dea356226d3" "m4.large" "libra"
      (freshWorld .missing)).2.file = .content (renderInstances [launchedRecord]) := by
  refine ⟨by rfl, by decide, by decide⟩

/-- C12 as stated fails: on the sample cloud with a failing request to the
external-IP service, the launch succeeds and `CreateWindowsVM` panics at the
lookup; no tagging, address allocation or ledger write follows. -/
theorem CreateWindowsVM_panics_on_failed_lookup :
    CreateWindowsVM lookupFailsEnv "ami-0b8d82dea356226d3" "m4.large" "libra" (freshWorld .missing) =
      (.panic "Failed to get external IP Addr",
       { calls :=
          [Call.ListInfrastructures,
           Call.DescribeVpcs [⟨"tag:Name", ["demo-vpc"]⟩, ⟨"state", ["available"]⟩],
           Call.DescribeSecurityGroups
             [⟨"tag:Name", ["demo-worker-sg"]⟩, ⟨"tag:kubernetes.io/cluster/demo", ["owned"]⟩],
           Call.GetInstanceProfile "demo-worker-profile",
           Call.DescribeSubnets [⟨"vpc-id", ["vpc-01"]⟩],
           Call.RunInstances
             { ImageId := "ami-0b8d82dea356226d3", InstanceType := "m4.large", KeyName := "libra",
               SubnetId := some "subnet-pub", MinCount := 1, MaxCount := 1,
               IamInstanceProfile := some ⟨"arn:aws:iam::1:instance-profile/demo-worker-profile"⟩,
               SecurityGroupIds := [none, some "sg-worker"] },
           Call.HttpGet "http://myexternalip.com/raw"],
         file := .missing, removeAttempts := 0 }) := by
  decide

/-- C12, amended: in every run of `CreateWindowsVM` in which the resolutions
before the launch return, the launch succeeds and the lookup of the caller's
public IP fails (request error or unreadable body), `getMyIp` panics and the
run ends there: the world is the one of the launch plus the `RunInstances` and
the lookup calls, so no ingress authorization, tagging, address allocation or
ledger write follows. -/
theorem CreateWindowsVM_lookup_failure_panics (env : Env) (imageId instanceType keyName : String)
    (w w1 w2 w3 w4 : World) (infra : openshiftcluster.Infrastructure) (vpcID : String)
    (workerSG : Except String String) (iamProfile : Except String IamInstanceProfileSpecification)
    (subnetID : Except String String) (first : Instance) (rest : List Instance)
    (hinfra : openshiftcluster.GetInfrastructure (env.listInfrastructures w.calls) = .ok infra)
    (hvpc : getVPCIdByInfrastructure env infra { w with calls := w.calls ++ [Call.ListInfrastructures] }
      = (.ret (.ok vpcID), w1))
    (hsg : getClusterWorkerSGID env infra.InfrastructureName w1 = (.ret workerSG, w2))
    (hiam : getIAMWorkerRole env infra.InfrastructureName w2 = (.ret iamProfile, w3))
    (hsub : getPubSubnetId env vpcID infra.InfrastructureName w3 = (.ret subnetID, w4))
    (hlaunch : env.runInstances w4.calls
        { ImageId := imageId, InstanceType := instanceType, KeyName := keyName,
          SubnetId := valueOrNil subnetID, MinCount := 1, MaxCount := 1,
          IamInstanceProfile := valueOrNil iamProfile,
          SecurityGroupIds := [none, valueOrNil workerSG] } = .ok (first :: rest))
    (hlookup : ∀ text, env.httpGet
        (w4.calls ++ [Call.RunInstances
          { ImageId := imageId, InstanceType := instanceType, KeyName := keyName,
            SubnetId := valueOrNil subnetID, MinCount := 1, MaxCount := 1,
            IamInstanceProfile := valueOrNil iamProfile,
            SecurityGroupIds := [none, valueOrNil workerSG] }])
        "http://myexternalip.com/raw" ≠ .body text) :
    ((CreateWindowsVM env imageId instanceType keyName w).1 = .panic "Failed to get external IP Addr" ∨
     (CreateWindowsVM env imageId instanceType keyName w).1 = .panic "Failed to read external IP Addr") ∧
    (CreateWindowsVM env imageId instanceType keyName w).2 =
      { w4 with calls := w4.calls ++
        [Call.RunInstances
          { ImageId := imageId, InstanceType := instanceType, KeyName := keyName,
            SubnetId := valueOrNil subnetID, MinCount := 1, MaxCount := 1,
            IamInstanceProfile := valueOrNil iamProfile,
            SecurityGroupIds := [none, valueOrNil workerSG] },
         Call.HttpGet "http://myexternalip.com/raw"] } := by
  simp only [CreateWindowsVM, M.bind_run, issue_run, hinfra, hvpc, hsg, hiam, hsub, hlaunch, getMyIp]
  cases hget : env.httpGet
        (w4.calls ++ [Call.RunInstances
          { ImageId := imageId, InstanceType := instanceType, KeyName := keyName,
            SubnetId := valueOrNil subnetID, MinCount := 1, MaxCount := 1,
            IamInstanceProfile := valueOrNil iamProfile,
            SecurityGroupIds := [none, valueOrNil workerSG] }])
        "http://myexternalip.com/raw" with
  | requestError msg => simp [goPanic]
  | bodyError msg => simp [goPanic]
  | body text => exact absurd hget (hlookup text)


/-- The amended C12 on the sample cloud with an unreadable answer body. -/
theorem CreateWindowsVM_lookup_failure_panics_witness :
    ((CreateWindowsVM lookupBodyFailsEnv "ami-0b8d82dea356226d3" "m4.large" "libra"
        (freshWorld .missing)).1 = .panic "Failed to get external IP Addr" ∨
     (CreateWindowsVM lookupBodyFailsEnv "ami-0b8d82dea356226d3" "m4.large" "libra"
        (freshWorld .missing)).1 = .panic "Failed to read external IP Addr") ∧
    (CreateWindowsVM lookupBodyFailsEnv "ami-0b8d82dea356226d3" "m4.large" "libra"
        (freshWorld .missing)).2 =
      { calls :=
          [Call.ListInfrastructures,
           Call.DescribeVpcs [⟨"tag:Name", ["demo-vpc"]⟩, ⟨"state", ["available"]⟩],
           Call.DescribeSecurityGroups
             [⟨"tag:Name", ["demo-worker-sg"]⟩, ⟨"tag:kubernetes.io/cluster/demo", ["owned"]⟩],
           Call.GetInstanceProfile "demo-worker-profile",
           Call.DescribeSubnets [⟨"vpc-id", ["vpc-01"]⟩]] ++
          [Call.RunInstances
             { ImageId := "ami-0b8d82dea356226d3", InstanceType := "m4.large", KeyName := "libra",
               SubnetId := some "subnet-pub", MinCount := 1, MaxCount := 1,
               IamInstanceProfile := some ⟨"arn:aws:iam::1:instance-profile/demo-worker-profile"⟩,
               SecurityGroupIds := [none, some "sg-worker"] },
           Call.HttpGet "http://myexternalip.com/raw"],
        file := .missing, removeAttempts := 0 } :=
  CreateWindowsVM_lookup_failure_panics lookupBodyFailsEnv "ami-0b8d82dea356226d3" "m4.large" "libra"
    (freshWorld .missing)
    { calls := [Call.ListInfrastructures,
                Call.DescribeVpcs [⟨"tag:Name", ["demo-vpc"]⟩, ⟨"state", ["available"]⟩]],
      file := .missing, removeAttempts := 0 }
    { calls := [Call.ListInfrastructures,
                Call.DescribeVpcs [⟨"tag:Name", ["demo-vpc"]⟩, ⟨"state", ["available"]⟩],
                Call.DescribeSecurityGroups
                  [⟨"tag:Name", ["demo-worker-sg"]⟩, ⟨"tag:kubernetes.io/cluster/demo", ["owned"]⟩]],
      file := .missing, removeAttempts := 0 }
    { calls := [Call.ListInfrastructures,
                Call.DescribeVpcs [⟨"tag:Name", ["demo-vpc"]⟩, ⟨"state", ["available"]⟩],
                Call.DescribeSecurityGroups
                  [⟨"tag:Name", ["demo-worker-sg"]⟩, ⟨"tag:kubernetes.io/cluster/demo", ["owned"]⟩],
                Call.GetInstanceProfile "demo-worker-profile"],
      file := .missing, removeAttempts := 0 }
    { calls := [Call.ListInfrastructures,
                Call.DescribeVpcs [⟨"tag:Name", ["demo-vpc"]⟩, ⟨"state", ["available"]⟩],
                Call.DescribeSecurityGroups
                  [⟨"tag:Name", ["demo-worker-sg"]⟩, ⟨"tag:kubernetes.io/cluster/demo", ["owned"]⟩],
                Call.GetInstanceProfile "demo-worker-profile",
                Call.DescribeSubnets [⟨"vpc-id", ["vpc-01"]⟩]],
      file := .missing, removeAttempts := 0 }
    ⟨"demo", "AWS", "us-east-1"⟩ "vpc-01" (.ok "sg-worker")
    (.ok ⟨"arn:aws:iam::1:instance-profile/demo-worker-profile"⟩) (.ok "subnet-pub")
    ⟨"i-0cc"⟩ [] (by rfl) (by rfl) (by rfl) (by rfl) (by rfl) (by rfl)
    (by intro text h; cases h)

/-! ## Removal of the ledger by `DestroyWindowsVM` -/

/-- The value of `err` after the outer loop over a non-empty ledger is the
answer to the termination of the last record. -/
theorem destroyLoop_last (env : Env) (before : List InstanceInfo) (last : InstanceInfo)
    (err : Option String) (w : World) :
    destroyLoop env (before ++ [last]) err w =
      (.ret (env.terminateInstances
          (w.calls ++
            (before.flatMap (fun inst =>
              (inst.SG.filter (fun sg => sg.Groupid ≠ "")).map (fun sg => Call.DeleteSecurityGroup sg.Groupid)
                ++ [Call.TerminateInstances [inst.Instanceid]]) ++
            (last.SG.filter (fun sg => sg.Groupid ≠ "")).map (fun sg => Call.DeleteSecurityGroup sg.Groupid)))
          [last.Instanceid]),
       { w with calls := w.calls ++
          ((before ++ [last]).flatMap (fun inst =>
            (inst.SG.filter (fun sg => sg.Groupid ≠ "")).map (fun sg => Call.DeleteSecurityGroup sg.Groupid)
              ++ [Call.TerminateInstances [inst.Instanceid]])) }) := by
  induction before generalizing err w with
  | nil =>
    obtain ⟨e1, h1⟩ := destroySGLoop_run env last.SG err w
    simp only [List.nil_append, destroyLoop, M.bind_run, h1, deleteInstance, issue_run]
    simp
    rfl
  | cons inst rest ih =>
    obtain ⟨e1, h1⟩ := destroySGLoop_run env inst.SG err w
    simp only [List.cons_append, destroyLoop, M.bind_run, h1, deleteInstance, issue_run]
    rw [show rest.append [last] = rest ++ [last] from rfl, ih]
    simp


/-- The removal step of `DestroyWindowsVM` counts one attempt, whatever
`os.Remove` answers. -/
theorem osRemove_then_return (env : Env) (w : World) :
    ((osRemove env >>= fun _ => (pure none : M (Option String))) w).2.removeAttempts
      = w.removeAttempts + 1 := by
  simp only [M.bind_run, osRemove]
  cases env.removeFile w.file <;> rfl

/-- The number of removal attempts of a run, from the value of `err` after the loop. -/
theorem DestroyWindowsVM_removeAttempts (env : Env) (w w1 : World) (ledger : Instances)
    (e : Option String)
    (hread : fileutil.ReadInstanceInfo env.jsonUnmarshal w.file = .ok ledger)
    (hloop : destroyLoop env ledger none w = (.ret e, w1)) :
    (DestroyWindowsVM env w).2.removeAttempts =
      if e = none then w1.removeAttempts + 1 else w1.removeAttempts := by
  simp only [DestroyWindowsVM, M.bind_run, readAWSInstanceInfo, hread, hloop]
  cases e with
  | none => simpa using osRemove_then_return env w1
  | some msg => simp; rfl

/-- C13: ledger deletion depends on the final error value only.  For every
ledger that is read successfully and every behaviour of the cloud: when the
ledger is empty, `DestroyWindowsVM` attempts to remove the file; when it ends
with the record `last`, it attempts the removal if and only if the termination
of the instance of `last` (issued after all the calls of the earlier records
and the group deletions of `last`) succeeded, whatever those other calls
answered. -/
theorem DestroyWindowsVM_removal_follows_last_termination (env : Env) (file : FileState)
    (ledger : Instances)
    (hread : fileutil.ReadInstanceInfo env.jsonUnmarshal file = .ok ledger) :
    (ledger = [] → 0 < (DestroyWindowsVM env (freshWorld file)).2.removeAttempts) ∧
    (∀ before last, ledger = before ++ [last] →
      (0 < (DestroyWindowsVM env (freshWorld file)).2.removeAttempts ↔
        env.terminateInstances
          (before.flatMap (fun inst =>
              (inst.SG.filter (fun sg => sg.Groupid ≠ "")).map (fun sg => Call.DeleteSecurityGroup sg.Groupid)
                ++ [Call.TerminateInstances [inst.Instanceid]]) ++
            (last.SG.filter (fun sg => sg.Groupid ≠ "")).map (fun sg => Call.DeleteSecurityGroup sg.Groupid))
          [last.Instanceid] = none)) := by
  constructor
  · intro hl
    subst hl
    rw [DestroyWindowsVM_removeAttempts env (freshWorld file) (freshWorld file) [] none hread rfl]
    simp
  · intro before last hl
    subst hl
    rw [DestroyWindowsVM_removeAttempts env (freshWorld file) _ _ _ hread
      (destroyLoop_last env before last none (freshWorld file))]
    simp only [freshWorld, List.nil_append]
    split <;> simp_all

/-- C13 on the ledger `[ownedRecord, borrowedRecord]` while the group deletion
and the first termination fail and the last termination succeeds, and on the
empty ledger. -/
theorem DestroyWindowsVM_removal_follows_last_termination_witness :
    (0 < (DestroyWindowsVM onlyLastTerminationSucceedsEnv
        (freshWorld (.content (renderInstances [ownedRecord, borrowedRecord])))).2.removeAttempts ↔
      onlyLastTerminationSucceedsEnv.terminateInstances
        ([Call.DeleteSecurityGroup "sg-0aa", Call.TerminateInstances ["i-0aa"]] ++ [])
        ["i-0bb"] = none) ∧
    onlyLastTerminationSucceedsEnv.deleteSecurityGroup [] "sg-0aa" = some "DependencyViolation" ∧
    onlyLastTerminationSucceedsEnv.terminateInstances [Call.DeleteSecurityGroup "sg-0aa"] ["i-0aa"]
      = some "OperationNotPermitted" ∧
    0 < (DestroyWindowsVM onlyLastTerminationSucceedsEnv
        (freshWorld (.content (renderInstances [ownedRecord, borrowedRecord])))).2.removeAttempts ∧
    0 < (DestroyWindowsVM sampleEnv (freshWorld (.content (renderInstances [])))).2.removeAttempts :=
  ⟨(DestroyWindowsVM_removal_follows_last_termination onlyLastTerminationSucceedsEnv
      (.content (renderInstances [ownedRecord, borrowedRecord])) [ownedRecord, borrowedRecord]
      (by rfl)).2 [ownedRecord] borrowedRecord rfl,
   by decide, by decide, by decide,
   (DestroyWindowsVM_removal_follows_last_termination sampleEnv
      (.content (renderInstances [])) [] (by rfl)).1 rfl⟩

end aws

end WincInstaller
